import Mathlib

/-!
Verification of the cpu-op operation-vector library (src/src/cpu-op.c).

The file embeds, shallowly, the user-space side of the library: the
typed operation records the encoder functions assemble, the wrapper
functions themselves, and the retry coordinator loop.  The
pinned-execution substrate (the cpu_opv system call's execution of a
vector) is not part of the repository's sources; its sequential
abort-on-first-violation semantics is modelled from the specification
and clearly marked as such below.
-/

/-- Memory addresses.  Pointer values stored in memory are plain integers,
so addresses are integers too, letting the retry coordinator's pointer
arithmetic (value + byte offset) be expressed directly. -/
abbrev Addr := Int

/-- Memory: a partial map from addresses to word values.  An address mapped
to `none` faults when dereferenced. -/
abbrev Mem := Addr → Option Int

/-- Write a word to memory at an address. -/
def writeMem (m : Mem) (a : Addr) (x : Int) : Mem :=
  fun a' => if a' = a then some x else m a'

/-- Fault policy of one operand: the `expect_fault_*` fields of
`struct cpu_op` (0 = fault is a programming error, 1 = fault is an
acknowledged recoverable condition). -/
inductive FaultPolicy where
  | NoFaultExpected
  | FaultIsRecoverable
deriving DecidableEq, Repr

/-- Role of the operand that faulted, for outcome reporting. -/
inductive Role where
  | opA
  | opB
  | dst
  | srcRole
  | target
deriving DecidableEq, Repr

/-- One operation record of a vector: the tagged-variant view of
`struct cpu_op` (discriminant `.op`, byte length `.len`, and the
per-variant operand payload with its fault-policy fields). -/
inductive CpuOp where
  | compareEq (a b : Addr) (len : Nat) (fa fb : FaultPolicy)
  | memcpy (dst src : Addr) (len : Nat) (fd fs : FaultPolicy)
  | memcpyRelease (dst src : Addr) (len : Nat) (fd fs : FaultPolicy)
  | add (p : Addr) (count : Int) (len : Nat) (fp : FaultPolicy)
  | addRelease (p : Addr) (count : Int) (len : Nat) (fp : FaultPolicy)
deriving DecidableEq, Repr

/-- Whether an operation carries the release variant. -/
def isReleaseOp : CpuOp → Bool
  | .memcpyRelease _ _ _ _ _ => true
  | .addRelease _ _ _ _ => true
  | _ => false

/-- Closed outcome taxonomy of one vector submission. -/
inductive Outcome where
  | Success
  | ComparisonMismatch
  | RecoverableFault (opIndex : Nat) (role : Role)
  | UnexpectedFault (opIndex : Nat) (role : Role)
  | SubstrateUnavailable
  | ConfigurationError
deriving DecidableEq, Repr

/-- Outcome of a fault on an operand, according to that operand's policy. -/
def faultOutcome (i : Nat) (r : Role) : FaultPolicy → Outcome
  | .FaultIsRecoverable => .RecoverableFault i r
  | .NoFaultExpected => .UnexpectedFault i r

/-- Modelled from the spec: execution of a single operation of a vector by
the pinned-execution substrate (the substrate itself is outside src/).
A dereference of an unmapped operand faults with the operand's policy
deciding recoverability; a failed comparison aborts with
`ComparisonMismatch`; an aborted step has no visible effect. -/
def execOp (i : Nat) (op : CpuOp) (m : Mem) : Except Outcome Mem :=
  match op with
  | .compareEq a b _ fa fb =>
    match m a with
    | none => .error (faultOutcome i .opA fa)
    | some va =>
      match m b with
      | none => .error (faultOutcome i .opB fb)
      | some vb => if va = vb then .ok m else .error .ComparisonMismatch
  | .memcpy dst src _ fd fs =>
    match m src with
    | none => .error (faultOutcome i .srcRole fs)
    | some x =>
      match m dst with
      | none => .error (faultOutcome i .dst fd)
      | some _ => .ok (writeMem m dst x)
  | .memcpyRelease dst src _ fd fs =>
    match m src with
    | none => .error (faultOutcome i .srcRole fs)
    | some x =>
      match m dst with
      | none => .error (faultOutcome i .dst fd)
      | some _ => .ok (writeMem m dst x)
  | .add p count _ fp =>
    match m p with
    | none => .error (faultOutcome i .target fp)
    | some x => .ok (writeMem m p (x + count))
  | .addRelease p count _ fp =>
    match m p with
    | none => .error (faultOutcome i .target fp)
    | some x => .ok (writeMem m p (x + count))

/-- Modelled from the spec: sequential execution of a vector, aborting at
the first violated contract; effects of the operations completed before
the abort persist, the aborted step itself has no visible effect. -/
def execVec (ops : List CpuOp) (i : Nat) (m : Mem) : Outcome × Mem :=
  match ops with
  | [] => (.Success, m)
  | op :: rest =>
    match execOp i op m with
    | .error o => (o, m)
    | .ok m' => execVec rest (i + 1) m'

/-- Modelled from the spec: the substrate-defined maximum operation count
of a vector (the bound itself lives in the substrate, outside src/). -/
def CPU_OP_VEC_LEN_MAX : Nat := 16

/-- Modelled from the spec: the substrate dispatch.  A vector exceeding
the maximum operation count is rejected with `ConfigurationError`
before any of its operations executes; otherwise the vector runs
sequentially with abort-on-first-violation semantics.  The `cpu` and
`flags` arguments do not affect the sequential memory semantics. -/
def cpu_opv_sem (ops : List CpuOp) (_cpu : Int) (_flags : Nat) (m : Mem) :
    Outcome × Mem :=
  if ops.length > CPU_OP_VEC_LEN_MAX then (.ConfigurationError, m)
  else execVec ops 0 m

/-- The user-space submitter `cpu_opv` (src/src/cpu-op.c:39): it forwards
the vector to the substrate dispatch unchanged. -/
def cpu_opv (ops : List CpuOp) (cpu : Int) (flags : Nat) (m : Mem) :
    Outcome × Mem :=
  cpu_opv_sem ops cpu flags m

/-- Modelled from the spec: the raw signed status the system call returns
for each outcome.  Success is 0; a failed comparison reports a positive
status (the retry coordinator's loop condition `ret > 0` retries exactly
on comparison mismatch, per the spec's step 5); faults and configuration
or availability errors are negative (-EAGAIN, -EFAULT, -EINVAL, -ENOSYS). -/
def rawResult : Outcome → Int
  | .Success => 0
  | .ComparisonMismatch => 1
  | .RecoverableFault _ _ => -11
  | .UnexpectedFault _ _ => -14
  | .SubstrateUnavailable => -38
  | .ConfigurationError => -22

/-- Byte width of `intptr_t` on the target (LP64). -/
def ptrSize : Nat := 8

/-- The vector `cpu_op_cmpxchg` (src/src/cpu-op.c:66) assembles: copy the
current word at `v` out to `old`, compare `v` against `expect`, copy
`n` into `v`.  All six operand fault policies are `NoFaultExpected`. -/
def cpu_op_cmpxchg_vec (v expect old n : Addr) (len : Nat) : List CpuOp :=
  [ .memcpy old v len .NoFaultExpected .NoFaultExpected,
    .compareEq v expect len .NoFaultExpected .NoFaultExpected,
    .memcpy v n len .NoFaultExpected .NoFaultExpected ]

/-- The function `cpu_op_cmpxchg` (src/src/cpu-op.c:66): submit the
three-operation vector pinned to `cpu` with flags 0. -/
def cpu_op_cmpxchg (v expect old n : Addr) (len : Nat) (cpu : Int) (m : Mem) :
    Outcome × Mem :=
  cpu_opv (cpu_op_cmpxchg_vec v expect old n len) cpu 0 m

/-- The vector `cpu_op_cmpeqv_storep_expect_fault` (src/src/cpu-op.c:168)
assembles: compare `v` against the stack local holding `expect` (here at
address `expectAddr`), then copy the word at `newp` into `v`.  Only the
copy's source operand is marked fault-recoverable ("Return EAGAIN on src
fault"). -/
def cpu_op_cmpeqv_storep_expect_fault_vec (v expectAddr newp : Addr) :
    List CpuOp :=
  [ .compareEq v expectAddr ptrSize .NoFaultExpected .NoFaultExpected,
    .memcpy v newp ptrSize .NoFaultExpected .FaultIsRecoverable ]

/-- The function `cpu_op_cmpeqv_storep_expect_fault` (src/src/cpu-op.c:168).
The C function keeps `expect` in a stack local whose address the compare
operation reads; `scratch` stands for that local's address, and the
dispatch therefore runs on a memory in which `scratch` holds `expect`. -/
def cpu_op_cmpeqv_storep_expect_fault (v : Addr) (expect : Int)
    (newp scratch : Addr) (cpu : Int) (m : Mem) : Outcome × Mem :=
  cpu_opv (cpu_op_cmpeqv_storep_expect_fault_vec v scratch newp) cpu 0
    (writeMem m scratch expect)

/-- The retry coordinator `cpu_op_cmpnev_storeoffp_load`
(src/src/cpu-op.c:198), with explicit fuel for the unbounded do/while
loop (`none` = fuel exhausted, or the plain `READ_ONCE(*v)` itself
dereferenced an unmapped address).  Each iteration: read `*v` once; if
it equals `expectnot` return 1 with no mutation attempted; otherwise
submit the compare-then-copy vector via
`cpu_op_cmpeqv_storep_expect_fault`; on raw status 0 store the value
read into `*load` and return 0; on a positive raw status (comparison
mismatch) retry; on a negative raw status return -1. -/
def cpu_op_cmpnev_storeoffp_load (fuel : Nat) (v : Addr) (expectnot : Int)
    (voffp : Int) (load scratch : Addr) (cpu : Int) (m : Mem) :
    Option (Int × Mem) :=
  match fuel with
  | 0 => none
  | fuel + 1 =>
    match m v with
    | none => none
    | some oldv =>
      if oldv = expectnot then some (1, m)
      else
        let newp : Addr := oldv + voffp
        let r := cpu_op_cmpeqv_storep_expect_fault v oldv newp scratch cpu m
        let ret := rawResult r.1
        if ret = 0 then some (0, writeMem r.2 load oldv)
        else if ret > 0 then
          cpu_op_cmpnev_storeoffp_load fuel v expectnot voffp load scratch
            cpu r.2
        else some (-1, r.2)

/-- The vector `cpu_op_cmpeqv_storev_mb_storev` (src/src/cpu-op.c:259)
assembles: compare `v` against the local holding `expect`, plain-copy
the local holding `newv2` into `v2`, then release-copy the local holding
`newv` into `v`.  `expectAddr`, `newv2Addr`, `newvAddr` are the stack
locals' addresses. -/
def cpu_op_cmpeqv_storev_mb_storev_vec (v expectAddr v2 newv2Addr newvAddr :
    Addr) : List CpuOp :=
  [ .compareEq v expectAddr ptrSize .NoFaultExpected .NoFaultExpected,
    .memcpy v2 newv2Addr ptrSize .NoFaultExpected .NoFaultExpected,
    .memcpyRelease v newvAddr ptrSize .NoFaultExpected .NoFaultExpected ]

/-- The vector `cpu_op_cmpeqv_memcpy_mb_storev` (src/src/cpu-op.c:379)
assembles: compare `v` against the local holding `expect`, plain-copy
`len` bytes from `src` to `dst`, then release-copy the local holding
`newv` into `v`. -/
def cpu_op_cmpeqv_memcpy_mb_storev_vec (v expectAddr dst src : Addr)
    (len : Nat) (newvAddr : Addr) : List CpuOp :=
  [ .compareEq v expectAddr ptrSize .NoFaultExpected .NoFaultExpected,
    .memcpy dst src len .NoFaultExpected .NoFaultExpected,
    .memcpyRelease v newvAddr ptrSize .NoFaultExpected .NoFaultExpected ]

/-- Modelled from the spec: the probe flag (from the cpu-op header, which
is outside src/) selecting the unpinned availability probe. -/
def CPU_OP_NR_FLAG : Nat := 1

/-- One raw dispatch request as handed to the system call: vector pointer
(as the list of records), record count, target cpu, flags. -/
structure DispatchReq where
  ops : List CpuOp
  cpuopcnt : Nat
  cpu : Int
  flags : Nat
deriving DecidableEq, Repr

/-- The request `cpu_op_available` issues (src/src/cpu-op.c:48):
`cpu_opv(NULL, 0, 0, CPU_OP_NR_FLAG)` — no operations, count zero,
the probe flag set. -/
def cpu_op_available_probe_req : DispatchReq :=
  { ops := [], cpuopcnt := 0, cpu := 0, flags := CPU_OP_NR_FLAG }

/-- The probe `cpu_op_available` (src/src/cpu-op.c:44), abstracted over
the raw system-call behaviour `sys`: it issues the zero-count probe
request and maps a non-negative raw status to 1 and a negative one
to 0. -/
def cpu_op_available (sys : DispatchReq → Int) : Int :=
  if sys cpu_op_available_probe_req ≥ 0 then 1 else 0

/-- Result of the CPU locator: either a returned id, or process abort. -/
inductive LocatorResult where
  | ret (cpu : Int)
  | aborted
deriving DecidableEq, Repr

/-- The locator `cpu_op_get_current_cpu` (src/src/cpu-op.c:54), abstracted
over the raw `sched_getcpu()` status: a negative status aborts the
process, otherwise the status is returned as the CPU id. -/
def cpu_op_get_current_cpu (sched_getcpu : Int) : LocatorResult :=
  if sched_getcpu < 0 then .aborted else .ret sched_getcpu

/-- Concrete memory for witnesses: word 5 at address 0 (the watched word),
word 5 at address 1 (the expected value), word 0 at address 2 (the old
out-buffer), word 9 at address 3 (the new value); all else unmapped. -/
def exM1 : Mem := fun a =>
  if a = 0 then some 5
  else if a = 1 then some 5
  else if a = 2 then some 0
  else if a = 3 then some 9
  else none

/-- Concrete memory for witnesses: like `exM1` but address 1 holds 6, a
value different from the watched word. -/
def exM2 : Mem := fun a =>
  if a = 0 then some 5
  else if a = 1 then some 6
  else if a = 2 then some 0
  else if a = 3 then some 9
  else none

/-- Concrete memory for the retry-coordinator fault scenario: the watched
word at address 0 holds 100 (so the derived candidate address 100+0 is
unmapped and the copy source faults), the load out-parameter at address
2 holds 7; all else unmapped. -/
def exM3 : Mem := fun a =>
  if a = 0 then some 100
  else if a = 2 then some 7
  else none

/-! Theorems -/

/-- C2 counterexample: `cpu_op_cmpxchg` does not assemble the
two-operation vector Compare(v,expect) → Copy(v,new); at the concrete
input v=0, expect=1, old=2, n=3, len=8 the assembled vector differs
(it has three operations and starts with a copy of the old value). -/
theorem cpu_op_cmpxchg_vec_not_two_ops :
    cpu_op_cmpxchg_vec 0 1 2 3 8 ≠
      [ CpuOp.compareEq 0 1 8 .NoFaultExpected .NoFaultExpected,
        CpuOp.memcpy 0 3 8 .NoFaultExpected .NoFaultExpected ] := by
  decide

/-- C2 (amended): `cpu_op_cmpxchg` assembles, for every input, exactly
the three-operation vector Copy(old←v) → Compare(v,expect) →
Copy(v←new), in that order, all operands marked NoFaultExpected. -/
theorem cpu_op_cmpxchg_vec_shape (v expect old n : Addr) (len : Nat) :
    cpu_op_cmpxchg_vec v expect old n len =
      [ CpuOp.memcpy old v len .NoFaultExpected .NoFaultExpected,
        CpuOp.compareEq v expect len .NoFaultExpected .NoFaultExpected,
        CpuOp.memcpy v n len .NoFaultExpected .NoFaultExpected ] := rfl

/-- C4: a vector whose operation count exceeds the substrate-defined
maximum is rejected with ConfigurationError and none of its operations
executes: the returned memory is exactly the submitted memory. -/
theorem cpu_opv_rejects_overlong (ops : List CpuOp) (cpu : Int)
    (flags : Nat) (m : Mem) (h : ops.length > CPU_OP_VEC_LEN_MAX) :
    cpu_opv ops cpu flags m = (Outcome.ConfigurationError, m) := by
  simp [cpu_opv, cpu_opv_sem, h]

/-- C4 witness: a 17-operation vector (one beyond the maximum of 16) is
rejected with ConfigurationError and leaves memory untouched. -/
theorem cpu_opv_rejects_overlong_witness :
    (List.replicate 17 (CpuOp.add 0 1 8 .NoFaultExpected)).length >
      CPU_OP_VEC_LEN_MAX ∧
    cpu_opv (List.replicate 17 (CpuOp.add 0 1 8 .NoFaultExpected)) 0 0
      (fun _ => none) = (Outcome.ConfigurationError, fun _ => none) :=
  ⟨by decide,
   cpu_opv_rejects_overlong _ 0 0 (fun _ => none) (by decide)⟩

/-- C6: `cpu_op_cmpeqv_storep_expect_fault`, called by every iteration of
the retry coordinator with the value just read as `expect`, submits
exactly the two-step vector Compare(v, address-holding-expect) →
Copy(v ← *newp), where only the copy's source operand is marked
FaultIsRecoverable and every other operand NoFaultExpected, on a memory
in which the compare's right-hand address holds the expected value. -/
theorem cmpeqv_storep_expect_fault_submission (v : Addr) (expect : Int)
    (newp scratch : Addr) (cpu : Int) (m : Mem) :
    cpu_op_cmpeqv_storep_expect_fault v expect newp scratch cpu m =
      cpu_opv
        [ CpuOp.compareEq v scratch ptrSize .NoFaultExpected .NoFaultExpected,
          CpuOp.memcpy v newp ptrSize .NoFaultExpected .FaultIsRecoverable ]
        cpu 0 (writeMem m scratch expect) ∧
    writeMem m scratch expect scratch = some expect := by
  exact ⟨rfl, by simp [writeMem]⟩

/-- C7: in both release-variant vectors (two-location compare-then-
double-store released, and compare-then-block-copy-then-store released)
exactly the final operation carries the release variant, it is the copy
publishing into the watched word `v`, and the earlier write is plain. -/
theorem release_variant_on_final_op_only (v expectAddr v2 newv2Addr
    newvAddr dst src : Addr) (len : Nat) :
    (cpu_op_cmpeqv_storev_mb_storev_vec v expectAddr v2 newv2Addr
        newvAddr).map isReleaseOp = [false, false, true] ∧
    (cpu_op_cmpeqv_storev_mb_storev_vec v expectAddr v2 newv2Addr
        newvAddr).getLast? = some (CpuOp.memcpyRelease v newvAddr ptrSize
        .NoFaultExpected .NoFaultExpected) ∧
    (cpu_op_cmpeqv_memcpy_mb_storev_vec v expectAddr dst src len
        newvAddr).map isReleaseOp = [false, false, true] ∧
    (cpu_op_cmpeqv_memcpy_mb_storev_vec v expectAddr dst src len
        newvAddr).getLast? = some (CpuOp.memcpyRelease v newvAddr ptrSize
        .NoFaultExpected .NoFaultExpected) :=
  ⟨rfl, rfl, rfl, rfl⟩

/-- C8: the availability probe issues the zero-count request with the
probe flag, returns 1 exactly when the raw dispatch status is
non-negative and 0 exactly when it is negative, and a zero-count vector
performs no memory operation. -/
theorem cpu_op_available_spec (sys : DispatchReq → Int) :
    cpu_op_available_probe_req.ops = [] ∧
    cpu_op_available_probe_req.cpuopcnt = 0 ∧
    cpu_op_available_probe_req.flags = CPU_OP_NR_FLAG ∧
    (cpu_op_available sys = 1 ↔ 0 ≤ sys cpu_op_available_probe_req) ∧
    (cpu_op_available sys = 0 ↔ sys cpu_op_available_probe_req < 0) ∧
    (∀ m : Mem, cpu_opv_sem [] 0 CPU_OP_NR_FLAG m = (Outcome.Success, m)) := by
  refine ⟨rfl, rfl, rfl, ?_, ?_, fun m => rfl⟩
  · rcases lt_or_le (sys cpu_op_available_probe_req) 0 with h | h
    · simp [cpu_op_available, h, not_le.mpr h]
    · simp [cpu_op_available, h]
  · rcases lt_or_le (sys cpu_op_available_probe_req) 0 with h | h
    · simp [cpu_op_available, h, not_le.mpr h]
    · simp [cpu_op_available, h, not_lt.mpr h]

/-- C9: the CPU locator never returns a negative id: any non-negative raw
`sched_getcpu` status is returned as the id, and any negative status
aborts the process. -/
theorem cpu_op_get_current_cpu_spec (r : Int) :
    (∀ c, cpu_op_get_current_cpu r = .ret c → 0 ≤ c) ∧
    (r < 0 → cpu_op_get_current_cpu r = .aborted) ∧
    (0 ≤ r → cpu_op_get_current_cpu r = .ret r) := by
  rcases lt_or_le r 0 with h | h
  · refine ⟨fun c hc => ?_, fun _ => ?_, fun h0 => absurd h0 (not_le.mpr h)⟩
    · simp [cpu_op_get_current_cpu, h] at hc
    · simp [cpu_op_get_current_cpu, h]
  · refine ⟨fun c hc => ?_, fun hlt => absurd h (not_le.mpr hlt), fun _ => ?_⟩
    · simp [cpu_op_get_current_cpu, not_lt.mpr h] at hc
      omega
    · simp [cpu_op_get_current_cpu, not_lt.mpr h]

/-- C9 witness: at raw status -1 the locator aborts; at raw status 3 it
returns id 3. -/
theorem cpu_op_get_current_cpu_spec_witness :
    cpu_op_get_current_cpu (-1) = LocatorResult.aborted ∧
    cpu_op_get_current_cpu 3 = LocatorResult.ret 3 :=
  ⟨(cpu_op_get_current_cpu_spec (-1)).2.1 (by decide),
   (cpu_op_get_current_cpu_spec 3).2.2 (by decide)⟩

/-- C1: under the sequential abort-on-first-violation semantics, when the
word at `v` holds A and the word at `expect` holds A, `cpu_op_cmpxchg`
succeeds and a subsequent read of `v` observes the new value B; when the
word at `expect` holds C with C ≠ A, the word at `v` is left unchanged
at A and the call reports ComparisonMismatch.  The `old` out-buffer must
be a mapped address distinct from the three operand addresses, as the C
contract requires. -/
theorem cpu_op_cmpxchg_spec (v expect old n : Addr) (len : Nat) (cpu : Int)
    (m : Mem) (A B O : Int)
    (hv : m v = some A) (hn : m n = some B) (hold : m old = some O)
    (h1 : old ≠ v) (h2 : old ≠ expect) (h3 : old ≠ n) :
    (m expect = some A →
      (cpu_op_cmpxchg v expect old n len cpu m).1 = Outcome.Success ∧
      (cpu_op_cmpxchg v expect old n len cpu m).2 v = some B) ∧
    (∀ C : Int, m expect = some C → C ≠ A →
      (cpu_op_cmpxchg v expect old n len cpu m).1 =
        Outcome.ComparisonMismatch ∧
      (cpu_op_cmpxchg v expect old n len cpu m).2 v = some A) := by
  constructor
  · intro he
    constructor <;>
      simp [cpu_op_cmpxchg, cpu_opv, cpu_opv_sem, cpu_op_cmpxchg_vec,
        CPU_OP_VEC_LEN_MAX, execVec, execOp, writeMem, hv, hn, hold, he,
        Ne.symm h1, Ne.symm h2, Ne.symm h3]
  · intro C he hCA
    constructor <;>
      simp [cpu_op_cmpxchg, cpu_opv, cpu_opv_sem, cpu_op_cmpxchg_vec,
        CPU_OP_VEC_LEN_MAX, execVec, execOp, writeMem, hv, hn, hold, he,
        Ne.symm h1, Ne.symm h2, Ne.symm h3, Ne.symm hCA]

/-- C1 witness: with the watched word at 0 holding 5, CAS(expect=5, new=9)
succeeds and the word reads 9 afterwards; with the expected value 6 ≠ 5,
the call reports ComparisonMismatch and the word still reads 5. -/
theorem cpu_op_cmpxchg_spec_witness :
    ((cpu_op_cmpxchg 0 1 2 3 8 0 exM1).1 = Outcome.Success ∧
     (cpu_op_cmpxchg 0 1 2 3 8 0 exM1).2 0 = some 9) ∧
    ((cpu_op_cmpxchg 0 1 2 3 8 0 exM2).1 = Outcome.ComparisonMismatch ∧
     (cpu_op_cmpxchg 0 1 2 3 8 0 exM2).2 0 = some 5) :=
  ⟨(cpu_op_cmpxchg_spec 0 1 2 3 8 0 exM1 5 9 0 rfl rfl rfl (by decide)
      (by decide) (by decide)).1 rfl,
   (cpu_op_cmpxchg_spec 0 1 2 3 8 0 exM2 5 9 0 rfl rfl rfl (by decide)
      (by decide) (by decide)).2 6 rfl (by decide)⟩

/-- C5: when the first plain read of the watched location yields the stop
sentinel `expectnot`, the retry coordinator returns the no-op-success
outcome 1 immediately with memory exactly as submitted: no vector was
submitted and no mutation attempted. -/
theorem cmpnev_storeoffp_load_sentinel (fuel : Nat) (v : Addr)
    (expectnot voffp : Int) (load scratch : Addr) (cpu : Int) (m : Mem)
    (hv : m v = some expectnot) :
    cpu_op_cmpnev_storeoffp_load (fuel + 1) v expectnot voffp load scratch
      cpu m = some (1, m) := by
  simp [cpu_op_cmpnev_storeoffp_load, hv]

/-- C5 witness: the watched word at address 0 of `exM1` holds the sentinel
5, so the coordinator returns 1 with the memory untouched. -/
theorem cmpnev_storeoffp_load_sentinel_witness :
    cpu_op_cmpnev_storeoffp_load 1 0 5 0 10 20 0 exM1 = some (1, exM1) :=
  cmpnev_storeoffp_load_sentinel 0 0 5 0 10 20 0 exM1 rfl

/-- C3 counterexample: at the concrete input v=0, expectnot=0, voffp=0,
load=2, scratch=1 over `exM3` (watched word holds 100, candidate
address 100 unmapped, load out-parameter holds 7), the coordinator
returns the fault outcome -1, yet the load out-parameter still holds 7,
not the value 100 read in step 1: the outcome does not carry the value
read from the watched location. -/
theorem cmpnev_storeoffp_load_fault_no_store :
    (cpu_op_cmpnev_storeoffp_load 1 0 0 0 2 1 0 exM3).map Prod.fst =
      some (-1) ∧
    (cpu_op_cmpnev_storeoffp_load 1 0 0 0 2 1 0 exM3).map
      (fun p => p.2 2) = some (some 7) ∧
    (some (some (7 : Int)) : Option (Option Int)) ≠ some (some 100) :=
  ⟨rfl, rfl, by decide⟩

/-- C3 (amended): when the copy-source operand of the submitted vector
faults recoverably — the candidate derived address `oldv + voffp` is
unmapped — the coordinator returns the distinguished "value changed
concurrently" outcome -1; the value read in step 1 is not stored through
the `load` out-parameter, which is left unchanged (only the callee's
stack local differs in the final memory). -/
theorem cmpnev_storeoffp_load_fault_spec (fuel : Nat) (v : Addr)
    (expectnot oldv voffp : Int) (load scratch : Addr) (cpu : Int) (m : Mem)
    (hv : m v = some oldv) (hne : oldv ≠ expectnot) (hsv : scratch ≠ v)
    (hfault : m (oldv + voffp) = none) (hns : oldv + voffp ≠ scratch) :
    cpu_op_cmpnev_storeoffp_load (fuel + 1) v expectnot voffp load scratch
      cpu m = some (-1, writeMem m scratch oldv) ∧
    (load ≠ scratch → writeMem m scratch oldv load = m load) := by
  constructor
  · simp only [cpu_op_cmpnev_storeoffp_load, hv, if_neg hne]
    simp [cpu_op_cmpeqv_storep_expect_fault,
      cpu_op_cmpeqv_storep_expect_fault_vec, cpu_opv, cpu_opv_sem,
      CPU_OP_VEC_LEN_MAX, execVec, execOp, writeMem, faultOutcome,
      rawResult, hv, hfault, hns, Ne.symm hsv]
  · intro h
    simp [writeMem, h]

/-- C3 witness: over `exM3` the recoverable copy-source fault yields the
-1 outcome with only the callee's local written, and the load
out-parameter at address 2, distinct from the local, is unchanged. -/
theorem cmpnev_storeoffp_load_fault_spec_witness :
    cpu_op_cmpnev_storeoffp_load 1 0 0 0 2 1 0 exM3 =
      some (-1, writeMem exM3 1 100) ∧
    writeMem exM3 1 100 2 = exM3 2 :=
  ⟨(cmpnev_storeoffp_load_fault_spec 0 0 0 100 0 2 1 0 exM3 rfl (by decide)
      (by decide) rfl (by decide)).1,
   (cmpnev_storeoffp_load_fault_spec 0 0 0 100 0 2 1 0 exM3 rfl (by decide)
      (by decide) rfl (by decide)).2 (by decide)⟩

/-- Helper: any non-Success submission of the compare-then-copy vector of
`cpu_op_cmpeqv_storep_expect_fault` leaves memory exactly as dispatched
(the only write of the vector is its final operation, whose completion
means Success). -/
theorem cmpeqv_storep_expect_fault_err_frame (v : Addr) (expect : Int)
    (newp scratch : Addr) (cpu : Int) (m : Mem)
    (h : (cpu_op_cmpeqv_storep_expect_fault v expect newp scratch cpu
        m).1 ≠ Outcome.Success) :
    (cpu_op_cmpeqv_storep_expect_fault v expect newp scratch cpu m).2 =
      writeMem m scratch expect := by
  have hred : cpu_op_cmpeqv_storep_expect_fault v expect newp scratch cpu m
      = execVec (cpu_op_cmpeqv_storep_expect_fault_vec v scratch newp) 0
        (writeMem m scratch expect) := by
    simp [cpu_op_cmpeqv_storep_expect_fault, cpu_opv, cpu_opv_sem,
      CPU_OP_VEC_LEN_MAX, cpu_op_cmpeqv_storep_expect_fault_vec]
  rw [hred] at h ⊢
  rcases h1 : writeMem m scratch expect v with _ | va
  · simp [cpu_op_cmpeqv_storep_expect_fault_vec, execVec, execOp, h1]
  · have hsc : writeMem m scratch expect scratch = some expect := by
      simp [writeMem]
    by_cases hva : va = expect
    · rcases h2 : writeMem m scratch expect newp with _ | x
      · simp [cpu_op_cmpeqv_storep_expect_fault_vec, execVec, execOp, h1,
          hsc, hva, h2]
      · exfalso
        apply h
        simp [cpu_op_cmpeqv_storep_expect_fault_vec, execVec, execOp, h1,
          hsc, hva, h2]
    · simp [cpu_op_cmpeqv_storep_expect_fault_vec, execVec, execOp, h1,
        hsc, hva]


/-- C10: the retry coordinator writes through its `load` out-parameter
only when it returns 0: whenever it returns the sentinel outcome 1 or
the fault outcome -1, the location `load` (distinct from the callee's
stack local) holds its original value in the final memory. -/
theorem cmpnev_storeoffp_load_frame (fuel : Nat) (v : Addr)
    (expectnot voffp : Int) (load scratch : Addr) (cpu : Int) (m : Mem)
    (r : Int) (m' : Mem) (hls : load ≠ scratch)
    (hres : cpu_op_cmpnev_storeoffp_load fuel v expectnot voffp load
      scratch cpu m = some (r, m'))
    (hr : r = 1 ∨ r = -1) :
    m' load = m load := by
  induction fuel generalizing m with
  | zero => simp [cpu_op_cmpnev_storeoffp_load] at hres
  | succ fuel ih =>
    rw [cpu_op_cmpnev_storeoffp_load] at hres
    rcases hm : m v with _ | oldv
    · rw [hm] at hres
      simp at hres
    · rw [hm] at hres
      simp only at hres
      by_cases hsent : oldv = expectnot
      · rw [if_pos hsent] at hres
        simp only [Option.some.injEq, Prod.mk.injEq] at hres
        rw [← hres.2]
      · rw [if_neg hsent] at hres
        set r0 := cpu_op_cmpeqv_storep_expect_fault v oldv (oldv + voffp)
          scratch cpu m with hr0
        by_cases h0 : rawResult r0.1 = 0
        · rw [if_pos h0] at hres
          simp only [Option.some.injEq, Prod.mk.injEq] at hres
          rcases hr with h | h <;> omega
        · rw [if_neg h0] at hres
          have hns : r0.1 ≠ Outcome.Success := by
            intro hS
            rw [hS] at h0
            exact h0 rfl
          have hmem : r0.2 = writeMem m scratch oldv :=
            cmpeqv_storep_expect_fault_err_frame v oldv (oldv + voffp)
              scratch cpu m hns
          by_cases hpos : rawResult r0.1 > 0
          · rw [if_pos hpos] at hres
            have := ih r0.2 hres
            rw [this, hmem]
            simp [writeMem, hls]
          · rw [if_neg hpos] at hres
            simp only [Option.some.injEq, Prod.mk.injEq] at hres
            rw [← hres.2, hmem]
            simp [writeMem, hls]

/-- C10 witness: on the concrete fault run over `exM3` returning -1, the
load out-parameter at address 2 holds its original value. -/
theorem cmpnev_storeoffp_load_frame_witness :
    writeMem exM3 1 100 2 = exM3 2 :=
  cmpnev_storeoffp_load_frame 1 0 0 0 2 1 0 exM3 (-1)
    (writeMem exM3 1 100) (by decide) rfl (Or.inr rfl)
